import Mathlib

/-!
Shallow embedding of the Mesa cleaning-robot simulation.

The repository has two near-duplicate simulation modules:

* `main.py` — `CleaningRobot`, `GridTile`, `CleaningSimulation` with
  statistics and a wall-clock time budget (the goal/time-budget variant);
* `cleaning_robot.py` — a minimal `CleaningRobot`, `GridTile`,
  `CleaningSimulation` with a remaining-steps budget (the round-budget
  variant).

Python integers become `Nat`/`Int`, floats (`dirtPercentage`, wall-clock
times) become `ℚ`, raised exceptions become `Except`/`Option` `none`/`error`
results.  Randomness (the `random.sample` dirty-cell draw, the scheduler's
per-round shuffle, each robot's `random.choice` move) is passed in as
explicit oracle arguments, since the code reads it from ambient generators.
Wall-clock reads (`time.time()`) are passed in as an explicit `now` argument.
-/

namespace CleaningSim

/-- A grid tile (`GridTile` in both source files): its coordinate and its
status (`0` = clean, `1` = dirty, exactly as the Python code encodes it). -/
structure Tile where
  pos : Nat × Nat
  status : Nat
deriving DecidableEq

/-- A cleaning robot from `main.py` (`CleaningRobot`): cleaned-cells and
movement counters plus the position Mesa's grid tracks for the agent. -/
structure Robot where
  cellsCleaned : Nat
  totalMovements : Nat
  pos : Nat × Nat
deriving DecidableEq

/-- The state of `CleaningSimulation` from `main.py`. -/
structure SimState where
  running : Bool
  robotCount : Nat
  gridWidth : Nat
  gridHeight : Nat
  maxTime : ℚ
  startTime : ℚ
  dirtPercentage : ℚ
  tiles : List Tile
  robots : List Robot
  cleanCells : Nat
  initialDirtyCells : Nat
  stepsExecuted : Nat
deriving DecidableEq

/-- Mesa's `MultiGrid.get_neighborhood(pos, moore=True, include_center=False)`
on a non-toroidal grid: the Moore-adjacent coordinates of `p`, clipped to
`[0,w) × [0,h)`, with the center excluded. -/
def get_neighborhood (w h : Nat) (p : Nat × Nat) : List (Nat × Nat) :=
  let candidates : List (Int × Int) :=
    (List.range 3).flatMap (fun i =>
      (List.range 3).map (fun j => ((p.1 : Int) + i - 1, (p.2 : Int) + j - 1)))
  (candidates.filter (fun q =>
      decide (¬(q.1 = (p.1 : Int) ∧ q.2 = (p.2 : Int)) ∧
        0 ≤ q.1 ∧ q.1 < (w : Int) ∧ 0 ≤ q.2 ∧ q.2 < (h : Int)))).map
    (fun q => (q.1.toNat, q.2.toNat))

/-- The test `isinstance(obj, GridTile) and obj.status == 1` applied to the
tiles found at coordinate `p` (robots at the cell are not `GridTile`s and are
skipped by the loop, so only tiles matter). -/
def isDirtyAt (p : Nat × Nat) (t : Tile) : Bool :=
  decide (t.pos = p ∧ t.status = 1)

/-- The in-place mutation `obj.status = 0` performed by the `for` loop in
`CleaningRobot.step`: the first dirty tile at `p` is marked clean, after which
the loop `return`s; all other tiles are untouched. -/
def cleanFirst : List Tile → (Nat × Nat) → List Tile
  | [], _ => []
  | t :: ts, p =>
    if isDirtyAt p t then { t with status := 0 } :: ts
    else t :: cleanFirst ts p

/-- Number of dirty tiles (`status == 1`) in a tile list. -/
def countDirty (ts : List Tile) : Nat :=
  ts.countP (fun t => decide (t.status = 1))

/-- `CleaningRobot.randomMove` from `main.py`: gather the Moore neighborhood,
re-filter it to in-bounds cells (a defensive, semantically redundant filter
present in the source), and if any cell remains, move there and count the
move.  `choice` is the oracle for `self.random.choice` (index modulo the
candidate count); `ri` indexes the robot in `robots`. -/
def randomMove (s : SimState) (ri : Nat) (choice : Nat) : SimState :=
  match s.robots[ri]? with
  | none => s
  | some r =>
    let adjacentCells := get_neighborhood s.gridWidth s.gridHeight r.pos
    let validCells := adjacentCells.filter
      (fun c => decide (c.1 < s.gridWidth ∧ c.2 < s.gridHeight))
    if hv : validCells = [] then s
    else
      let nextPosition := validCells.get
        ⟨choice % validCells.length, Nat.mod_lt _ (List.length_pos.mpr hv)⟩
      { s with robots := (s.robots.set ri
          { r with pos := nextPosition,
                   totalMovements := r.totalMovements + 1 }) }

/-- `CleaningRobot.step` from `main.py`: if a dirty tile sits at the robot's
position, clean it, bump the robot's `cellsCleaned` and the model's
`cleanCells`, and return without moving; otherwise `randomMove`. -/
def robotStep (s : SimState) (ri : Nat) (choice : Nat) : SimState :=
  match s.robots[ri]? with
  | none => s
  | some r =>
    if (s.tiles.find? (isDirtyAt r.pos)).isSome then
      { s with tiles := cleanFirst s.tiles r.pos,
               robots := (s.robots.set ri
                 { r with cellsCleaned := r.cellsCleaned + 1 }),
               cleanCells := s.cleanCells + 1 }
    else randomMove s ri choice

/-- Mesa's `RandomActivation.step`: activate every robot once, in the freshly
shuffled order `order` (an oracle permutation of robot indices), each with its
own move-choice oracle from `choices`. -/
def scheduleStep (s : SimState) (order choices : List Nat) : SimState :=
  (order.zip choices).foldl (fun st oc => robotStep st oc.1 oc.2) s

/-- The statistics snapshot a `getStatistics()` call returns. -/
structure Stats where
  porcentajeCompletado : ℚ
  tiempoTranscurrido : ℚ
  movimientosTotales : Nat
deriving DecidableEq

/-- `CleaningSimulation.getStatistics` from `main.py`.  The percentage is
`(self.cleanCells / self.initialDirtyCells) * 100`; with
`initialDirtyCells == 0` Python raises `ZeroDivisionError`, modelled as
`none`.  Only robots are ever added to the schedule, so the
`isinstance`-filtered robot list is exactly `s.robots`. -/
def getStatistics (s : SimState) (now : ℚ) : Option Stats :=
  if s.initialDirtyCells = 0 then none
  else some
    { porcentajeCompletado :=
        ((s.cleanCells : ℚ) / (s.initialDirtyCells : ℚ)) * 100
      tiempoTranscurrido := now - s.startTime
      movimientosTotales := (s.robots.map Robot.totalMovements).sum }

/-- `CleaningSimulation.step` from `main.py`.  `now` is the oracle for the
`time.time()` read.  When the termination condition
`elapsedTime >= maxTime or cleanCells >= initialDirtyCells` holds, the flag
is cleared (the source then prints the statistics, which mutates nothing;
with `initialDirtyCells == 0` that print raises `ZeroDivisionError`, see
`getStatistics` — the state change below has already happened).  Otherwise a
scheduler round runs and `stepsExecuted` is bumped. -/
def simStep (s : SimState) (now : ℚ) (order choices : List Nat) : SimState :=
  let elapsedTime := now - s.startTime
  if s.maxTime ≤ elapsedTime ∨ s.initialDirtyCells ≤ s.cleanCells then
    { s with running := false }
  else
    let s1 := scheduleStep s order choices
    { s1 with stepsExecuted := s1.stepsExecuted + 1 }

/-- Python's `int()` truncation toward zero, applied to a rational. -/
def pyInt (q : ℚ) : Int :=
  if q < 0 then -Int.floor (-q) else Int.floor q

/-- The list comprehension `[(x, y) for x in range(w) for y in range(h)]`
used both as the `random.sample` population and (in the same order) by the
tile-creation loops. -/
def allCoords (w h : Nat) : List (Nat × Nat) :=
  (List.range w).flatMap (fun x => (List.range h).map (fun y => (x, y)))

/-- The exceptions the two constructors can raise: `ValueError` from
`random.sample` (sample size negative or larger than the population) and
`IndexError` from placing an agent at an out-of-bounds coordinate. -/
inductive PyError where
  | valueError
  | indexError
deriving DecidableEq

/-- A well-formed outcome of `random.sample(allCoords w h, k)`: `k` distinct
coordinates drawn from the population. -/
def isValidSample (w h k : Nat) (sample : List (Nat × Nat)) : Prop :=
  sample.Nodup ∧ sample.length = k ∧ ∀ p ∈ sample, p ∈ allCoords w h

/-- `CleaningSimulation.__init__` from `main.py` (including
`setupEnvironment`).  `sample` is the oracle outcome of the `random.sample`
call and `now` the `time.time()` start reference.  The constructor performs
no explicit parameter validation; it fails only when `random.sample` raises
`ValueError` (dirty count negative or above `width*height`) or when
`grid.place_agent(robot, (1, 1))` raises `IndexError` because `(1,1)` is
outside the grid — tiles themselves are always placed in bounds. -/
def mkSimulation (width height robotCount : Nat) (dirtPercentage maxTime now : ℚ)
    (sample : List (Nat × Nat)) : Except PyError SimState :=
  if pyInt (((width * height : Nat) : ℚ) * dirtPercentage) < 0 ∨
      ((width * height : Nat) : Int) <
        pyInt (((width * height : Nat) : ℚ) * dirtPercentage) then
    .error .valueError
  else if robotCount ≠ 0 ∧ ¬(1 < width ∧ 1 < height) then .error .indexError
  else .ok
    { running := true
      robotCount := robotCount
      gridWidth := width
      gridHeight := height
      maxTime := maxTime
      startTime := now
      dirtPercentage := dirtPercentage
      tiles := (allCoords width height).map
        (fun p => ⟨p, if p ∈ sample then 1 else 0⟩)
      robots := (List.range robotCount).map (fun _ => ⟨0, 0, (1, 1)⟩)
      cleanCells := 0
      initialDirtyCells :=
        (pyInt (((width * height : Nat) : ℚ) * dirtPercentage)).toNat
      stepsExecuted := 0 }

/-- The conservation invariant tying `main.py`'s global counter to the grid:
cells counted as cleaned plus tiles still dirty equal the initial dirty-cell
count. -/
def Inv (s : SimState) : Prop :=
  s.cleanCells + countDirty s.tiles = s.initialDirtyCells

/-- A robot from `cleaning_robot.py` (no counters there). -/
structure CRRobot where
  pos : Nat × Nat
deriving DecidableEq

/-- The state of `CleaningSimulation` from `cleaning_robot.py` (round-budget
variant; `steps_remaining` is a Python `int`, so `Int`). -/
structure CRState where
  running : Bool
  steps_remaining : Int
  gridWidth : Nat
  gridHeight : Nat
  tiles : List Tile
  robots : List CRRobot
deriving DecidableEq

/-- `CleaningRobot.random_move` from `cleaning_robot.py`: no bounds
re-filter and, crucially, no emptiness guard — `random.choice` on an empty
neighborhood raises `IndexError`, modelled as `none`. -/
def random_move (s : CRState) (ri : Nat) (choice : Nat) : Option CRState :=
  match s.robots[ri]? with
  | none => some s
  | some r =>
    let adjacent_cells := get_neighborhood s.gridWidth s.gridHeight r.pos
    if hv : adjacent_cells = [] then none
    else
      let next_position := adjacent_cells.get
        ⟨choice % adjacent_cells.length, Nat.mod_lt _ (List.length_pos.mpr hv)⟩
      some { s with robots := s.robots.set ri { pos := next_position } }

/-- `CleaningRobot.step` from `cleaning_robot.py`: clean the tile underfoot
if dirty (no counters in this module), else `random_move`. -/
def crRobotStep (s : CRState) (ri : Nat) (choice : Nat) : Option CRState :=
  match s.robots[ri]? with
  | none => some s
  | some r =>
    if (s.tiles.find? (isDirtyAt r.pos)).isSome then
      some { s with tiles := cleanFirst s.tiles r.pos }
    else random_move s ri choice

/-- `CleaningSimulation.step` from `cleaning_robot.py`: with no budget left,
clear the running flag; otherwise run a shuffled scheduler round and
decrement the budget.  A raised `IndexError` from a robot's move propagates
(`none`). -/
def crStep (s : CRState) (order choices : List Nat) : Option CRState :=
  if s.steps_remaining ≤ 0 then some { s with running := false }
  else
    ((order.zip choices).foldlM
        (fun st oc => crRobotStep st oc.1 oc.2) s).map
      (fun s1 => { s1 with steps_remaining := s1.steps_remaining - 1 })

/-- `CleaningSimulation.__init__` from `cleaning_robot.py`: same structure as
the `main.py` constructor (sample the dirty cells, create every tile, place
every robot at `(1, 1)`), without statistics fields.  Mesa's `Model.__init__`
sets `running = True`. -/
def mkCRSimulation (robot_count grid_width grid_height : Nat)
    (steps_remaining : Int) (dirt_percentage : ℚ)
    (sample : List (Nat × Nat)) : Except PyError CRState :=
  if pyInt (((grid_width * grid_height : Nat) : ℚ) * dirt_percentage) < 0 ∨
      ((grid_width * grid_height : Nat) : Int) <
        pyInt (((grid_width * grid_height : Nat) : ℚ) * dirt_percentage) then
    .error .valueError
  else if robot_count ≠ 0 ∧ ¬(1 < grid_width ∧ 1 < grid_height) then
    .error .indexError
  else .ok
    { running := true
      steps_remaining := steps_remaining
      gridWidth := grid_width
      gridHeight := grid_height
      tiles := (allCoords grid_width grid_height).map
        (fun p => ⟨p, if p ∈ sample then 1 else 0⟩)
      robots := (List.range robot_count).map (fun _ => ⟨(1, 1)⟩) }

/-- The coordinates of the tiles currently dirty (the initial dirty-cell set
when read off a freshly constructed simulation). -/
def dirtyPositions (s : SimState) : List (Nat × Nat) :=
  (s.tiles.filter (fun t => decide (t.status = 1))).map Tile.pos

/-- Pointwise evolution relation on tile lists: same coordinates, and a
status can only go down (`1` dirty → `0` clean), never up. -/
def tilesLE (ts us : List Tile) : Prop :=
  List.Forall₂ (fun t u => u.pos = t.pos ∧ u.status ≤ t.status) ts us

instance (w h k : Nat) (sample : List (Nat × Nat)) :
    Decidable (isValidSample w h k sample) := by
  unfold isValidSample; infer_instance

instance (s : SimState) : Decidable (Inv s) := by
  unfold Inv; infer_instance

/-- The tile list built by the setup loops from the sampled dirty set. -/
def setupTiles (w h : Nat) (sample : List (Nat × Nat)) : List Tile :=
  (allCoords w h).map (fun p => ⟨p, if p ∈ sample then 1 else 0⟩)

/-- Concrete dirty-cell sample used in witness statements: the outcome
`random.sample` can return for a 5×5 grid with `dirtPercentage = 0.3`. -/
def exSample7 : List (Nat × Nat) :=
  [(0, 0), (0, 1), (0, 2), (0, 3), (0, 4), (1, 0), (1, 1)]

/-- A 2×2 simulation state of the `main.py` model whose tile at `(0,0)` is
dirty and whose single robot stands on it. -/
def exDirtyState : SimState :=
  { running := true
    robotCount := 1
    gridWidth := 2
    gridHeight := 2
    maxTime := 60
    startTime := 0
    dirtPercentage := 0
    tiles := [⟨(0, 0), 1⟩, ⟨(0, 1), 0⟩, ⟨(1, 0), 0⟩, ⟨(1, 1), 0⟩]
    robots := [⟨0, 0, (0, 0)⟩]
    cleanCells := 0
    initialDirtyCells := 1
    stepsExecuted := 0 }

/-- A state with `initialDirtyCells = 0` (what a `dirtPercentage = 0`
construction produces on a 1-cell environment with no robots). -/
def exZeroState : SimState :=
  { running := true
    robotCount := 0
    gridWidth := 1
    gridHeight := 1
    maxTime := 60
    startTime := 0
    dirtPercentage := 0
    tiles := [⟨(0, 0), 0⟩]
    robots := []
    cleanCells := 0
    initialDirtyCells := 0
    stepsExecuted := 0 }

/-- A goal-reached 5×5-scenario state: five initial dirty cells, all five
already cleaned. -/
def exGoalState : SimState :=
  { running := true
    robotCount := 1
    gridWidth := 5
    gridHeight := 5
    maxTime := 60
    startTime := 0
    dirtPercentage := 1/5
    tiles := []
    robots := [⟨5, 0, (1, 1)⟩]
    cleanCells := 5
    initialDirtyCells := 5
    stepsExecuted := 0 }

/-- Two co-located robots on the dirty tile `(0,0)` of a 2×2 grid. -/
def exTwoRobots : SimState :=
  { exDirtyState with robots := [⟨0, 0, (0, 0)⟩, ⟨0, 0, (0, 0)⟩] }

/-- `main.py` model on a degenerate 1×1 grid: one clean tile, one robot. -/
def exMain1x1 : SimState :=
  { running := true
    robotCount := 1
    gridWidth := 1
    gridHeight := 1
    maxTime := 60
    startTime := 0
    dirtPercentage := 0
    tiles := [⟨(0, 0), 0⟩]
    robots := [⟨0, 0, (0, 0)⟩]
    cleanCells := 0
    initialDirtyCells := 0
    stepsExecuted := 0 }

/-- `cleaning_robot.py` model on a degenerate 1×1 grid: one clean tile, one
robot standing on it. -/
def exCR1x1 : CRState :=
  { running := true
    steps_remaining := 100
    gridWidth := 1
    gridHeight := 1
    tiles := [⟨(0, 0), 0⟩]
    robots := [⟨(0, 0)⟩] }

/-- `cleaning_robot.py` model with an exhausted round budget. -/
def exCRDone : CRState :=
  { running := true
    steps_remaining := 0
    gridWidth := 3
    gridHeight := 3
    tiles := [⟨(0, 0), 1⟩]
    robots := [⟨(1, 1)⟩] }

/-- Concrete dirty-cell sample of size 5 on the 5×5 grid. -/
def exSample5 : List (Nat × Nat) :=
  [(0, 0), (0, 1), (0, 2), (0, 3), (0, 4)]

/-- The state `mkSimulation 5 5 1 (1/5) 60 0 exSample5` constructs. -/
def exC3State : SimState :=
  { running := true
    robotCount := 1
    gridWidth := 5
    gridHeight := 5
    maxTime := 60
    startTime := 0
    dirtPercentage := 1/5
    tiles := setupTiles 5 5 exSample5
    robots := [⟨0, 0, (1, 1)⟩]
    cleanCells := 0
    initialDirtyCells := 5
    stepsExecuted := 0 }

/-- The state `mkSimulation 2 2 1 (1/2) 60 0 [(0,0),(1,1)]` constructs. -/
def exC5State : SimState :=
  { running := true
    robotCount := 1
    gridWidth := 2
    gridHeight := 2
    maxTime := 60
    startTime := 0
    dirtPercentage := 1/2
    tiles := setupTiles 2 2 [(0, 0), (1, 1)]
    robots := [⟨0, 0, (1, 1)⟩]
    cleanCells := 0
    initialDirtyCells := 2
    stepsExecuted := 0 }

section Lemmas

theorem tilesLE_refl (ts : List Tile) : tilesLE ts ts :=
  List.forall₂_same.mpr (fun _ _ => ⟨rfl, le_refl _⟩)

theorem tilesLE_trans {ts us vs : List Tile} (h1 : tilesLE ts us)
    (h2 : tilesLE us vs) : tilesLE ts vs := by
  unfold tilesLE at h1 h2 ⊢
  induction h1 generalizing vs with
  | nil => cases h2; exact List.Forall₂.nil
  | cons h _ ih =>
    cases h2 with
    | cons h' t' =>
      exact List.Forall₂.cons ⟨h'.1.trans h.1, h'.2.trans h.2⟩ (ih t')

theorem cleanFirst_map_pos (ts : List Tile) (p : Nat × Nat) :
    (cleanFirst ts p).map Tile.pos = ts.map Tile.pos := by
  induction ts with
  | nil => rfl
  | cons t ts ih =>
    unfold cleanFirst
    by_cases h : isDirtyAt p t = true
    · simp [h]
    · rw [Bool.not_eq_true] at h
      simp [h, ih]

theorem cleanFirst_tilesLE (ts : List Tile) (p : Nat × Nat) :
    tilesLE ts (cleanFirst ts p) := by
  induction ts with
  | nil => exact List.Forall₂.nil
  | cons t ts ih =>
    unfold cleanFirst
    by_cases h : isDirtyAt p t = true
    · rw [if_pos h]
      exact List.Forall₂.cons ⟨rfl, Nat.zero_le _⟩ (tilesLE_refl ts)
    · rw [if_neg h]
      exact List.Forall₂.cons ⟨rfl, le_refl _⟩ ih

theorem countDirty_cleanFirst (ts : List Tile) (p : Nat × Nat)
    (h : (ts.find? (isDirtyAt p)).isSome = true) :
    countDirty (cleanFirst ts p) + 1 = countDirty ts := by
  induction ts with
  | nil => simp [List.find?] at h
  | cons t ts ih =>
    unfold cleanFirst
    by_cases hd : isDirtyAt p t = true
    · rw [if_pos hd]
      have hst : t.status = 1 := (of_decide_eq_true hd).2
      simp [countDirty, List.countP_cons, hst]
    · rw [if_neg hd]
      rw [List.find?_cons_of_neg _ hd] at h
      have := ih h
      simp only [countDirty, List.countP_cons] at this ⊢
      omega

theorem countP_dirtyAt_cleanFirst (ts : List Tile) (p : Nat × Nat)
    (h : (ts.find? (isDirtyAt p)).isSome = true) :
    (cleanFirst ts p).countP (isDirtyAt p) + 1 = ts.countP (isDirtyAt p) := by
  induction ts with
  | nil => simp [List.find?] at h
  | cons t ts ih =>
    unfold cleanFirst
    by_cases hd : isDirtyAt p t = true
    · rw [if_pos hd]
      have hst : t.status = 1 := (of_decide_eq_true hd).2
      rw [List.countP_cons, List.countP_cons, hd]
      have h0 : isDirtyAt p { t with status := 0 } = false := by
        simp [isDirtyAt]
      rw [h0]
      simp
    · rw [if_neg hd]
      rw [List.find?_cons_of_neg _ hd] at h
      have := ih h
      rw [List.countP_cons, List.countP_cons]
      omega

theorem randomMove_const_fields (s : SimState) (ri c : Nat) :
    (randomMove s ri c).tiles = s.tiles ∧
    (randomMove s ri c).cleanCells = s.cleanCells ∧
    (randomMove s ri c).running = s.running ∧
    (randomMove s ri c).initialDirtyCells = s.initialDirtyCells ∧
    (randomMove s ri c).maxTime = s.maxTime ∧
    (randomMove s ri c).startTime = s.startTime := by
  unfold randomMove
  cases s.robots[ri]? with
  | none => exact ⟨rfl, rfl, rfl, rfl, rfl, rfl⟩
  | some r =>
    dsimp only
    split
    · exact ⟨rfl, rfl, rfl, rfl, rfl, rfl⟩
    · exact ⟨rfl, rfl, rfl, rfl, rfl, rfl⟩

theorem robotStep_const_fields (s : SimState) (ri c : Nat) :
    (robotStep s ri c).running = s.running ∧
    (robotStep s ri c).initialDirtyCells = s.initialDirtyCells ∧
    (robotStep s ri c).maxTime = s.maxTime ∧
    (robotStep s ri c).startTime = s.startTime := by
  unfold robotStep
  cases s.robots[ri]? with
  | none => exact ⟨rfl, rfl, rfl, rfl⟩
  | some r =>
    dsimp only
    split
    · exact ⟨rfl, rfl, rfl, rfl⟩
    · obtain ⟨-, -, h1, h2, h3, h4⟩ := randomMove_const_fields s ri c
      exact ⟨h1, h2, h3, h4⟩

theorem robotStep_inv (s : SimState) (ri c : Nat) (h : Inv s) :
    Inv (robotStep s ri c) := by
  unfold robotStep
  cases s.robots[ri]? with
  | none => exact h
  | some r =>
    dsimp only
    split
    · rename_i hf
      unfold Inv at h ⊢
      dsimp only
      have := countDirty_cleanFirst s.tiles r.pos hf
      omega
    · obtain ⟨h1, h2, -, h3, -, -⟩ := randomMove_const_fields s ri c
      unfold Inv at h ⊢
      rw [h1, h2, h3]
      exact h

theorem robotStep_cleanCells_mono (s : SimState) (ri c : Nat) :
    s.cleanCells ≤ (robotStep s ri c).cleanCells := by
  unfold robotStep
  cases s.robots[ri]? with
  | none => exact le_refl _
  | some r =>
    dsimp only
    split
    · exact Nat.le_succ _
    · exact le_of_eq (randomMove_const_fields s ri c).2.1.symm

theorem robotStep_tilesLE (s : SimState) (ri c : Nat) :
    tilesLE s.tiles (robotStep s ri c).tiles := by
  unfold robotStep
  cases s.robots[ri]? with
  | none => exact tilesLE_refl _
  | some r =>
    dsimp only
    split
    · exact cleanFirst_tilesLE s.tiles r.pos
    · rw [(randomMove_const_fields s ri c).1]
      exact tilesLE_refl _

theorem robotStep_map_pos (s : SimState) (ri c : Nat) :
    (robotStep s ri c).tiles.map Tile.pos = s.tiles.map Tile.pos := by
  unfold robotStep
  cases s.robots[ri]? with
  | none => rfl
  | some r =>
    dsimp only
    split
    · exact cleanFirst_map_pos s.tiles r.pos
    · rw [(randomMove_const_fields s ri c).1]

theorem foldl_robotStep_pres {P : SimState → Prop}
    (hP : ∀ s ri c, P s → P (robotStep s ri c)) :
    ∀ (l : List (Nat × Nat)) (s : SimState), P s →
      P (l.foldl (fun st oc => robotStep st oc.1 oc.2) s) := by
  intro l
  induction l with
  | nil => intro s hs; exact hs
  | cons a l ih => intro s hs; exact ih _ (hP _ _ _ hs)

theorem foldl_robotStep_rel {R : SimState → SimState → Prop}
    (htrans : ∀ {a b c : SimState}, R a b → R b c → R a c)
    (hstep : ∀ s ri c, R s (robotStep s ri c))
    (hrefl : ∀ s, R s s) :
    ∀ (l : List (Nat × Nat)) (s : SimState),
      R s (l.foldl (fun st oc => robotStep st oc.1 oc.2) s) := by
  intro l
  induction l with
  | nil => intro s; exact hrefl s
  | cons a l ih => intro s; exact htrans (hstep s a.1 a.2) (ih _)

theorem scheduleStep_running (s : SimState) (o c : List Nat) :
    (scheduleStep s o c).running = s.running := by
  unfold scheduleStep
  exact foldl_robotStep_pres (P := fun st => st.running = s.running)
    (fun s' ri c' h => ((robotStep_const_fields s' ri c').1).trans h) _ s rfl

theorem scheduleStep_initialDirtyCells (s : SimState) (o c : List Nat) :
    (scheduleStep s o c).initialDirtyCells = s.initialDirtyCells := by
  unfold scheduleStep
  exact foldl_robotStep_pres
    (P := fun st => st.initialDirtyCells = s.initialDirtyCells)
    (fun s' ri c' h => ((robotStep_const_fields s' ri c').2.1).trans h) _ s rfl

theorem scheduleStep_inv (s : SimState) (o c : List Nat) (h : Inv s) :
    Inv (scheduleStep s o c) := by
  unfold scheduleStep
  exact foldl_robotStep_pres (fun s' ri c' h' => robotStep_inv s' ri c' h') _ s h

theorem scheduleStep_cleanCells_mono (s : SimState) (o c : List Nat) :
    s.cleanCells ≤ (scheduleStep s o c).cleanCells := by
  unfold scheduleStep
  exact foldl_robotStep_rel (R := fun a b => a.cleanCells ≤ b.cleanCells)
    (fun hab hbc => le_trans hab hbc) robotStep_cleanCells_mono
    (fun _ => le_refl _) _ s

theorem scheduleStep_tilesLE (s : SimState) (o c : List Nat) :
    tilesLE s.tiles (scheduleStep s o c).tiles := by
  unfold scheduleStep
  exact foldl_robotStep_rel (R := fun a b => tilesLE a.tiles b.tiles)
    (fun hab hbc => tilesLE_trans hab hbc) robotStep_tilesLE
    (fun _ => tilesLE_refl _) _ s

theorem scheduleStep_map_pos (s : SimState) (o c : List Nat) :
    (scheduleStep s o c).tiles.map Tile.pos = s.tiles.map Tile.pos := by
  unfold scheduleStep
  exact foldl_robotStep_pres
    (P := fun st => st.tiles.map Tile.pos = s.tiles.map Tile.pos)
    (fun s' ri c' h => (robotStep_map_pos s' ri c').trans h) _ s rfl

theorem simStep_inv (s : SimState) (now : ℚ) (o c : List Nat) (h : Inv s) :
    Inv (simStep s now o c) := by
  unfold simStep
  dsimp only
  split
  · exact h
  · exact scheduleStep_inv s o c h

theorem simStep_cleanCells_mono (s : SimState) (now : ℚ) (o c : List Nat) :
    s.cleanCells ≤ (simStep s now o c).cleanCells := by
  unfold simStep
  dsimp only
  split
  · exact le_refl _
  · exact scheduleStep_cleanCells_mono s o c

theorem simStep_initialDirtyCells (s : SimState) (now : ℚ) (o c : List Nat) :
    (simStep s now o c).initialDirtyCells = s.initialDirtyCells := by
  unfold simStep
  dsimp only
  split
  · rfl
  · exact scheduleStep_initialDirtyCells s o c

theorem simStep_tilesLE (s : SimState) (now : ℚ) (o c : List Nat) :
    tilesLE s.tiles (simStep s now o c).tiles := by
  unfold simStep
  dsimp only
  split
  · exact tilesLE_refl _
  · exact scheduleStep_tilesLE s o c

theorem simStep_map_pos (s : SimState) (now : ℚ) (o c : List Nat) :
    (simStep s now o c).tiles.map Tile.pos = s.tiles.map Tile.pos := by
  unfold simStep
  dsimp only
  split
  · rfl
  · exact scheduleStep_map_pos s o c

theorem simStep_running_iff (s : SimState) (now : ℚ) (o c : List Nat)
    (h : s.running = true) :
    ((simStep s now o c).running = false) ↔
      (s.maxTime ≤ now - s.startTime ∨ s.initialDirtyCells ≤ s.cleanCells) := by
  unfold simStep
  dsimp only
  by_cases hc : s.maxTime ≤ now - s.startTime ∨ s.initialDirtyCells ≤ s.cleanCells
  · rw [if_pos hc]
    exact iff_of_true rfl hc
  · rw [if_neg hc]
    refine iff_of_false ?_ hc
    show ¬((scheduleStep s o c).running = false)
    rw [scheduleStep_running, h]
    simp

theorem allCoords_eq_product (w h : Nat) :
    allCoords w h = (List.range w).product (List.range h) := rfl

theorem allCoords_nodup (w h : Nat) : (allCoords w h).Nodup := by
  rw [allCoords_eq_product]
  exact (List.nodup_range w).product (List.nodup_range h)

theorem mem_allCoords {w h : Nat} {p : Nat × Nat} :
    p ∈ allCoords w h ↔ p.1 < w ∧ p.2 < h := by
  rw [allCoords_eq_product]
  cases p with
  | mk x y => rw [List.pair_mem_product, List.mem_range, List.mem_range]

theorem setupTiles_map_pos (w h : Nat) (sample : List (Nat × Nat)) :
    (setupTiles w h sample).map Tile.pos = allCoords w h := by
  unfold setupTiles
  rw [List.map_map]
  exact List.map_id _

theorem countDirty_setup (w h k : Nat) (sample : List (Nat × Nat))
    (hs : isValidSample w h k sample) :
    countDirty (setupTiles w h sample) = k := by
  obtain ⟨hnd, hlen, hmem⟩ := hs
  unfold countDirty setupTiles
  rw [List.countP_map]
  have hcg : List.countP
      ((fun t => decide (t.status = 1)) ∘
        (fun p => (⟨p, if p ∈ sample then 1 else 0⟩ : Tile))) (allCoords w h) =
      List.countP (fun p => decide (p ∈ sample)) (allCoords w h) := by
    refine List.countP_congr (fun x _ => ?_)
    by_cases hx : x ∈ sample <;> simp [hx]
  rw [hcg, List.countP_eq_length_filter]
  have hperm : ((allCoords w h).filter (fun p => decide (p ∈ sample))).Perm
      sample := by
    rw [List.perm_ext_iff_of_nodup
      ((allCoords_nodup w h).filter _) hnd]
    intro a
    rw [List.mem_filter]
    constructor
    · intro ha
      exact of_decide_eq_true ha.2
    · intro ha
      exact ⟨hmem a ha, decide_eq_true ha⟩
  rw [hperm.length_eq, hlen]

theorem countP_eq_one_of_nodup_mem {α : Type} [DecidableEq α] {l : List α}
    {a : α} (hnd : l.Nodup) (ha : a ∈ l) :
    l.countP (fun x => decide (x = a)) = 1 := by
  induction l with
  | nil => cases ha
  | cons b l ih =>
    rw [List.countP_cons]
    rcases List.mem_cons.mp ha with rfl | hmem
    · have hb : ¬ a ∈ l := (List.nodup_cons.mp hnd).1
      have hz : l.countP (fun x => decide (x = a)) = 0 :=
        List.countP_eq_zero.mpr (fun x hx => by
          simp only [decide_eq_true_eq]
          rintro rfl
          exact hb hx)
      simp [hz]
    · have hne : b ≠ a := by
        rintro rfl
        exact (List.nodup_cons.mp hnd).1 hmem
      rw [ih (List.nodup_cons.mp hnd).2 hmem]
      simp [hne]

theorem count_setupTiles (w h : Nat) (sample : List (Nat × Nat))
    (q : Nat × Nat) (hq : q ∈ allCoords w h) :
    (setupTiles w h sample).countP (fun t => decide (t.pos = q)) = 1 := by
  unfold setupTiles
  rw [List.countP_map]
  have hcg : List.countP
      ((fun t => decide (t.pos = q)) ∘
        (fun p => (⟨p, if p ∈ sample then 1 else 0⟩ : Tile))) (allCoords w h) =
      List.countP (fun p => decide (p = q)) (allCoords w h) := by
    refine List.countP_congr (fun x _ => ?_)
    by_cases hx : x = q <;> simp [hx]
  rw [hcg]
  exact countP_eq_one_of_nodup_mem (allCoords_nodup w h) hq

/-- Inverting a successful `mkSimulation` call: the constructed state is the
literal record the constructor builds. -/
theorem mkSimulation_ok_elim {w h rc : Nat} {p mt t0 : ℚ}
    {sample : List (Nat × Nat)} {s : SimState}
    (hk : mkSimulation w h rc p mt t0 sample = .ok s) :
    s = { running := true
          robotCount := rc
          gridWidth := w
          gridHeight := h
          maxTime := mt
          startTime := t0
          dirtPercentage := p
          tiles := setupTiles w h sample
          robots := (List.range rc).map (fun _ => ⟨0, 0, (1, 1)⟩)
          cleanCells := 0
          initialDirtyCells := (pyInt (((w * h : Nat) : ℚ) * p)).toNat
          stepsExecuted := 0 } := by
  unfold mkSimulation at hk
  split at hk
  · exact absurd hk (by simp)
  · split at hk
    · exact absurd hk (by simp)
    · exact (Except.ok.inj hk).symm

theorem pyInt_eq_floor {q : ℚ} (h : 0 ≤ q) : pyInt q = Int.floor q := by
  unfold pyInt
  rw [if_neg (not_lt.mpr h)]

theorem map_pos_set_of_same_pos {l : List Robot} {ri : Nat} {r r' : Robot}
    (hr : l[ri]? = some r) (hpos : r'.pos = r.pos) :
    (l.set ri r').map Robot.pos = l.map Robot.pos := by
  induction l generalizing ri with
  | nil => simp at hr
  | cons a tl ih =>
    cases ri with
    | zero =>
      rw [List.getElem?_cons_zero] at hr
      cases hr
      rw [List.set_cons_zero, List.map_cons, List.map_cons, hpos]
    | succ n =>
      rw [List.getElem?_cons_succ] at hr
      rw [List.set_cons_succ, List.map_cons, List.map_cons, ih hr]

theorem randomMove_of_empty {s : SimState} {ri : Nat} (ch : Nat) {r : Robot}
    (hr : s.robots[ri]? = some r)
    (hn : get_neighborhood s.gridWidth s.gridHeight r.pos = []) :
    randomMove s ri ch = s := by
  unfold randomMove
  rw [hr]
  dsimp only
  have hfil : (get_neighborhood s.gridWidth s.gridHeight r.pos).filter
      (fun cc => decide (cc.1 < s.gridWidth ∧ cc.2 < s.gridHeight)) = [] := by
    rw [hn]
    rfl
  rw [dif_pos hfil]

theorem robotStep_of_empty {s : SimState} {ri : Nat} (ch : Nat) {r : Robot}
    (hr : s.robots[ri]? = some r)
    (hn : get_neighborhood s.gridWidth s.gridHeight r.pos = [])
    (hf : (s.tiles.find? (isDirtyAt r.pos)).isSome = false) :
    robotStep s ri ch = s := by
  unfold robotStep
  rw [hr]
  dsimp only
  rw [hf]
  rw [if_neg (by simp)]
  exact randomMove_of_empty ch hr hn

end Lemmas

section Claims

/-- **C1**, counterexample.  The claim says that with an initial dirty-cell
count of 0 the completion percentage is defined as 0 and no division error
is raised.  In the code, a `dirtPercentage = 0` construction succeeds (here
3×3 with one robot), yet `getStatistics` then evaluates
`(cleanCells / initialDirtyCells) * 100` with `initialDirtyCells = 0` and
raises `ZeroDivisionError` (modelled as `none`) instead of reporting 0. -/
theorem C1_counterexample :
    (mkSimulation 3 3 1 0 60 0 []).toOption.map (fun s => getStatistics s 0) =
      some none := by
  norm_num [mkSimulation, pyInt, Except.toOption, getStatistics]

/-- **C1**, amended.  `getStatistics()` returns completion percentage
`100 * cleanCells / initialDirtyCells` whenever `initialDirtyCells ≠ 0`;
when `initialDirtyCells = 0` it raises `ZeroDivisionError` (no statistics
are produced) rather than reporting 0. -/
theorem C1_statistics_division (s : SimState) (now : ℚ) :
    (s.initialDirtyCells ≠ 0 →
      getStatistics s now = some
        { porcentajeCompletado :=
            100 * (s.cleanCells : ℚ) / (s.initialDirtyCells : ℚ)
          tiempoTranscurrido := now - s.startTime
          movimientosTotales := (s.robots.map Robot.totalMovements).sum }) ∧
    (s.initialDirtyCells = 0 → getStatistics s now = none) := by
  constructor
  · intro h
    unfold getStatistics
    rw [if_neg h]
    refine congrArg some ?_
    have hq : ((s.cleanCells : ℚ) / (s.initialDirtyCells : ℚ)) * 100 =
        100 * (s.cleanCells : ℚ) / (s.initialDirtyCells : ℚ) := by ring
    rw [hq]
  · intro h
    unfold getStatistics
    rw [if_pos h]

/-- Witness for **C1**: on a state with one initial dirty cell the
statistics are produced with the claimed formula; on a state with zero
initial dirty cells the call raises. -/
theorem C1_statistics_division_witness :
    (getStatistics exDirtyState 0).isSome = true ∧
    getStatistics exZeroState 0 = none := by
  constructor
  · rw [(C1_statistics_division exDirtyState 0).1 (by decide)]
    rfl
  · exact (C1_statistics_division exZeroState 0).2 rfl

/-- **C2**, counterexample.  The claim says every configuration with
`robotCount = 0` is rejected as a configuration error at construction.  In
the code there is no parameter validation: constructing a 5×5 simulation
with `robotCount = 0` and `dirtPercentage = 0.3` succeeds (given a
legitimate `random.sample` outcome of the required size 7) and yields a
simulation with zero robots. -/
theorem C2_counterexample :
    isValidSample 5 5 7 exSample7 ∧
    (mkSimulation 5 5 0 (3/10) 60 0 exSample7).toOption.map
      SimState.robots = some [] := by
  constructor
  · decide
  · norm_num [mkSimulation, pyInt, Except.toOption]

/-- **C2**, amended.  The constructor performs no explicit parameter
validation.  Its only failure modes are: `ValueError` from `random.sample`
exactly when the computed dirty-cell count `int(width*height*dirtPercentage)`
is negative or exceeds `width*height` (e.g. `dirtPercentage` outside
`[0, 1]`), and `IndexError` exactly when at least one robot must be placed
at the hard-coded `(1, 1)` on a grid with `width ≤ 1` or `height ≤ 1`.  In
particular `robotCount = 0` is accepted whenever the sample size is
feasible, contrary to the claim. -/
theorem C2_no_validation (w h rc : Nat) (p mt t0 : ℚ)
    (sample : List (Nat × Nat)) :
    (mkSimulation w h rc p mt t0 sample = .error .valueError ↔
      (pyInt (((w * h : Nat) : ℚ) * p) < 0 ∨
        ((w * h : Nat) : Int) < pyInt (((w * h : Nat) : ℚ) * p))) ∧
    (mkSimulation w h rc p mt t0 sample = .error .indexError ↔
      (¬(pyInt (((w * h : Nat) : ℚ) * p) < 0 ∨
          ((w * h : Nat) : Int) < pyInt (((w * h : Nat) : ℚ) * p)) ∧
        rc ≠ 0 ∧ ¬(1 < w ∧ 1 < h))) ∧
    ((mkSimulation w h rc p mt t0 sample).toOption.isSome = true ↔
      (¬(pyInt (((w * h : Nat) : ℚ) * p) < 0 ∨
          ((w * h : Nat) : Int) < pyInt (((w * h : Nat) : ℚ) * p)) ∧
        (rc = 0 ∨ (1 < w ∧ 1 < h)))) := by
  unfold mkSimulation
  by_cases h1 : pyInt (((w * h : Nat) : ℚ) * p) < 0 ∨
      ((w * h : Nat) : Int) < pyInt (((w * h : Nat) : ℚ) * p)
  · rw [if_pos h1]
    refine ⟨iff_of_true rfl h1, ?_, ?_⟩
    · exact iff_of_false (by simp) (fun hh => hh.1 h1)
    · exact iff_of_false (by simp [Except.toOption]) (fun hh => hh.1 h1)
  · rw [if_neg h1]
    by_cases h2 : rc ≠ 0 ∧ ¬(1 < w ∧ 1 < h)
    · rw [if_pos h2]
      refine ⟨iff_of_false (by simp) h1, iff_of_true rfl ⟨h1, h2⟩, ?_⟩
      refine iff_of_false (by simp [Except.toOption]) ?_
      rintro ⟨-, hor⟩
      rcases hor with h0 | hb
      · exact h2.1 h0
      · exact h2.2 hb
    · rw [if_neg h2]
      refine ⟨iff_of_false (by simp) h1, iff_of_false (by simp) ?_, ?_⟩
      · rintro ⟨-, hrc, hb⟩
        exact h2 ⟨hrc, hb⟩
      · refine iff_of_true (by simp [Except.toOption]) ⟨h1, ?_⟩
        by_cases h0 : rc = 0
        · exact Or.inl h0
        · refine Or.inr ?_
          by_contra hb
          exact h2 ⟨h0, hb⟩

/-- Witness for **C2**: a `robotCount = 0` construction on a 2×1 grid with
`dirtPercentage = 0` succeeds, via the success characterization. -/
theorem C2_no_validation_witness :
    (mkSimulation 2 1 0 0 60 0 []).toOption.isSome = true :=
  (C2_no_validation 2 1 0 0 60 0 []).2.2.mpr
    ⟨by norm_num [pyInt], Or.inl rfl⟩

/-- **C3**.  In the goal/time-budget variant (`main.py`), a `step()` on a
running simulation clears the running flag exactly when the elapsed
wall-clock time has reached `maxTime` or `cleanCells` has reached
`initialDirtyCells`; under the conservation invariant the counter condition
is exactly "all initial dirty cells are clean" (no dirty tile remains).  In
the 5×5, `dirtPercentage = 0.2`, `robotCount = 1` scenario the constructor
records exactly 5 initial dirty cells; while time remains, `running`
becomes `false` on a step exactly when the cleaned count is 5, and the
statistics then report completion percentage 100. -/
theorem C3_goal_time_termination :
    (∀ (s : SimState) (now : ℚ) (o c : List Nat), s.running = true →
      (((simStep s now o c).running = false) ↔
        (s.maxTime ≤ now - s.startTime ∨
          s.initialDirtyCells ≤ s.cleanCells))) ∧
    (∀ s : SimState, Inv s →
      (s.initialDirtyCells ≤ s.cleanCells ↔ countDirty s.tiles = 0)) ∧
    (∀ (mt t0 : ℚ) (sample : List (Nat × Nat)) (s : SimState),
      mkSimulation 5 5 1 (1/5) mt t0 sample = .ok s →
      s.initialDirtyCells = 5) ∧
    (∀ (s : SimState) (now : ℚ) (o c : List Nat), s.running = true →
      s.initialDirtyCells = 5 → s.cleanCells ≤ 5 →
      now - s.startTime < s.maxTime →
      (((simStep s now o c).running = false) ↔ s.cleanCells = 5)) ∧
    (∀ (s : SimState) (now : ℚ), s.initialDirtyCells = 5 → s.cleanCells = 5 →
      (getStatistics s now).map Stats.porcentajeCompletado = some 100) := by
  refine ⟨simStep_running_iff, ?_, ?_, ?_, ?_⟩
  · intro s h
    unfold Inv at h
    omega
  · intro mt t0 sample s hk
    rw [mkSimulation_ok_elim hk]
    show (pyInt (((5 * 5 : Nat) : ℚ) * (1/5))).toNat = 5
    norm_num [pyInt]
    rfl
  · intro s now o c hr h5 hle hlt
    rw [simStep_running_iff s now o c hr]
    constructor
    · rintro (htime | hcnt)
      · exact absurd htime (not_le.mpr hlt)
      · omega
    · intro hc
      right
      omega
  · intro s now h5 hc
    simp only [getStatistics, h5, hc]
    norm_num

/-- Witness for **C3**: on the goal-reached 5×5 state, a step at time 1
terminates (the iff holds with the counter condition satisfied), the
constructor applied to a concrete sample records 5 initial dirty cells, and
the statistics report 100. -/
theorem C3_goal_time_termination_witness :
    ((simStep exGoalState 1 [] []).running = false ↔
      (exGoalState.maxTime ≤ 1 - exGoalState.startTime ∨
        exGoalState.initialDirtyCells ≤ exGoalState.cleanCells)) ∧
    (exGoalState.initialDirtyCells ≤ exGoalState.cleanCells ↔
      countDirty exGoalState.tiles = 0) ∧
    exC3State.initialDirtyCells = 5 ∧
    ((simStep exGoalState 1 [] []).running = false ↔
      exGoalState.cleanCells = 5) ∧
    (getStatistics exGoalState 1).map Stats.porcentajeCompletado =
      some 100 := by
  have hk : mkSimulation 5 5 1 (1/5) 60 0 exSample5 = .ok exC3State := by
    norm_num [mkSimulation, pyInt, exC3State, setupTiles, exSample5]
    rfl
  refine ⟨C3_goal_time_termination.1 exGoalState 1 [] [] rfl,
    C3_goal_time_termination.2.1 exGoalState (by decide),
    C3_goal_time_termination.2.2.1 60 0 exSample5 exC3State hk,
    C3_goal_time_termination.2.2.2.1 exGoalState 1 [] [] rfl rfl
      (by decide) (by norm_num [exGoalState]),
    C3_goal_time_termination.2.2.2.2 exGoalState 1 rfl rfl⟩

/-- **C4**, counterexample.  The claim's consequence "an agent occupying a
Dirty tile at round start never changes coordinate that round" fails with
co-located robots: on a 2×2 grid with both robots on the dirty tile
`(0,0)`, the first-activated robot cleans it without moving, after which
the second-activated robot — which also stood on a Dirty tile at round
start — finds the tile clean and moves away during the same round. -/
theorem C4_counterexample :
    (exTwoRobots.tiles.find? (isDirtyAt (0, 0))).isSome = true ∧
    exTwoRobots.robots.map Robot.pos = [(0, 0), (0, 0)] ∧
    (scheduleStep exTwoRobots [0, 1] [0, 0]).robots.map Robot.pos ≠
      exTwoRobots.robots.map Robot.pos := by
  refine ⟨rfl, rfl, ?_⟩
  decide

/-- **C4**, amended.  For every single agent activation: if a Dirty tile
sits at the agent's coordinate, the agent marks it Clean (one fewer dirty
tile at that coordinate, coordinates themselves untouched), increments its
own `cellsCleaned` and the simulation's `cleanCells`, and no robot changes
coordinate during that activation.  The round-start consequence claimed by
the spec holds only for a lone robot: with `robots = [r]` on a dirty tile,
the full round leaves every robot position unchanged.  (With several
co-located robots it fails, see the counterexample.) -/
theorem C4_clean_then_stay :
    (∀ (s : SimState) (ri ch : Nat) (r : Robot), s.robots[ri]? = some r →
      (s.tiles.find? (isDirtyAt r.pos)).isSome = true →
      (robotStep s ri ch).robots =
        s.robots.set ri { r with cellsCleaned := r.cellsCleaned + 1 } ∧
      (robotStep s ri ch).cleanCells = s.cleanCells + 1 ∧
      (robotStep s ri ch).robots.map Robot.pos = s.robots.map Robot.pos ∧
      (robotStep s ri ch).tiles.countP (isDirtyAt r.pos) + 1 =
        s.tiles.countP (isDirtyAt r.pos) ∧
      (robotStep s ri ch).tiles.map Tile.pos = s.tiles.map Tile.pos) ∧
    (∀ (s : SimState) (ch : Nat) (r : Robot), s.robots = [r] →
      (s.tiles.find? (isDirtyAt r.pos)).isSome = true →
      (scheduleStep s [0] [ch]).robots.map Robot.pos =
        s.robots.map Robot.pos) := by
  have hmain : ∀ (s : SimState) (ri ch : Nat) (r : Robot),
      s.robots[ri]? = some r →
      (s.tiles.find? (isDirtyAt r.pos)).isSome = true →
      (robotStep s ri ch).robots =
        s.robots.set ri { r with cellsCleaned := r.cellsCleaned + 1 } ∧
      (robotStep s ri ch).cleanCells = s.cleanCells + 1 ∧
      (robotStep s ri ch).robots.map Robot.pos = s.robots.map Robot.pos ∧
      (robotStep s ri ch).tiles.countP (isDirtyAt r.pos) + 1 =
        s.tiles.countP (isDirtyAt r.pos) ∧
      (robotStep s ri ch).tiles.map Tile.pos = s.tiles.map Tile.pos := by
    intro s ri ch r hr hf
    unfold robotStep
    rw [hr]
    dsimp only
    rw [if_pos hf]
    refine ⟨rfl, rfl, ?_, ?_, ?_⟩
    · exact map_pos_set_of_same_pos hr rfl
    · exact countP_dirtyAt_cleanFirst s.tiles r.pos hf
    · exact cleanFirst_map_pos s.tiles r.pos
  refine ⟨hmain, ?_⟩
  intro s ch r hr hf
  have h0 : s.robots[0]? = some r := by
    rw [hr]
    rfl
  show (robotStep s 0 ch).robots.map Robot.pos = s.robots.map Robot.pos
  exact (hmain s 0 ch r h0 hf).2.2.1

/-- Witness for **C4**: the lone robot of `exDirtyState` stands on the
dirty tile `(0,0)`; its activation cleans and it does not move, and the
whole round leaves its position unchanged. -/
theorem C4_clean_then_stay_witness :
    ((robotStep exDirtyState 0 0).robots =
      exDirtyState.robots.set 0 ⟨1, 0, (0, 0)⟩ ∧
    (robotStep exDirtyState 0 0).cleanCells = exDirtyState.cleanCells + 1 ∧
    (robotStep exDirtyState 0 0).robots.map Robot.pos =
      exDirtyState.robots.map Robot.pos ∧
    (robotStep exDirtyState 0 0).tiles.countP (isDirtyAt (0, 0)) + 1 =
      exDirtyState.tiles.countP (isDirtyAt (0, 0)) ∧
    (robotStep exDirtyState 0 0).tiles.map Tile.pos =
      exDirtyState.tiles.map Tile.pos) ∧
    (scheduleStep exDirtyState [0] [0]).robots.map Robot.pos =
      exDirtyState.robots.map Robot.pos :=
  ⟨C4_clean_then_stay.1 exDirtyState 0 0 ⟨0, 0, (0, 0)⟩ rfl rfl,
   C4_clean_then_stay.2 exDirtyState 0 ⟨0, 0, (0, 0)⟩ rfl rfl⟩

/-- **C6**, counterexample.  The claim says an agent with an empty Moore
neighborhood (the 1×1 grid) performs a defined no-op, not an error.  That
is true of `main.py`, but the repository's second implementation
(`cleaning_robot.py`) calls `random.choice` on the empty neighborhood list,
which raises `IndexError`: the per-round action on the 1×1 state errors
(`none`) instead of being a no-op. -/
theorem C6_counterexample :
    get_neighborhood exCR1x1.gridWidth exCR1x1.gridHeight (0, 0) = [] ∧
    crRobotStep exCR1x1 0 0 = none := by
  exact ⟨rfl, rfl⟩

/-- **C6**, amended.  On an empty Moore neighborhood, `main.py`'s
`randomMove` performs no movement and the agent's whole activation is a
no-op when its tile is clean (defined behavior); `cleaning_robot.py`'s
`random_move`, however, raises `IndexError` (`random.choice` of an empty
list).  A 1×1 grid does produce the empty neighborhood. -/
theorem C6_empty_neighborhood :
    (∀ (s : SimState) (ri ch : Nat) (r : Robot), s.robots[ri]? = some r →
      get_neighborhood s.gridWidth s.gridHeight r.pos = [] →
      randomMove s ri ch = s) ∧
    (∀ (s : SimState) (ri ch : Nat) (r : Robot), s.robots[ri]? = some r →
      get_neighborhood s.gridWidth s.gridHeight r.pos = [] →
      (s.tiles.find? (isDirtyAt r.pos)).isSome = false →
      robotStep s ri ch = s) ∧
    (∀ (s : CRState) (ri ch : Nat) (r : CRRobot), s.robots[ri]? = some r →
      get_neighborhood s.gridWidth s.gridHeight r.pos = [] →
      random_move s ri ch = none) ∧
    get_neighborhood 1 1 (0, 0) = [] := by
  refine ⟨fun s ri ch r hr hn => randomMove_of_empty ch hr hn,
    fun s ri ch r hr hn hf => robotStep_of_empty ch hr hn hf, ?_, rfl⟩
  intro s ri ch r hr hn
  unfold random_move
  rw [hr]
  dsimp only
  rw [dif_pos hn]

/-- Witness for **C6**: on the 1×1 states, `main.py`'s move and activation
are no-ops while `cleaning_robot.py`'s move errors. -/
theorem C6_empty_neighborhood_witness :
    randomMove exMain1x1 0 0 = exMain1x1 ∧
    robotStep exMain1x1 0 0 = exMain1x1 ∧
    random_move exCR1x1 0 0 = none :=
  ⟨C6_empty_neighborhood.1 exMain1x1 0 0 ⟨0, 0, (0, 0)⟩ rfl rfl,
   C6_empty_neighborhood.2.1 exMain1x1 0 0 ⟨0, 0, (0, 0)⟩ rfl rfl rfl,
   C6_empty_neighborhood.2.2.1 exCR1x1 0 0 ⟨(0, 0)⟩ rfl rfl⟩

/-- **C7**.  Termination is absorbing in both modules.  In `main.py`, once
a `step()` has flipped `running` from `true` to `false` the termination
condition held, and it still holds at any later wall-clock instant (time
only moves forward, the counters are untouched), so every subsequent
`step()` returns the state completely unchanged — in particular `running`
never becomes `true` again.  In `cleaning_robot.py`, a step with an
exhausted budget only clears the flag, and repeating it is the identity on
the resulting state. -/
theorem C7_terminated_idempotent :
    (∀ (s : SimState) (t1 : ℚ) (o1 c1 : List Nat) (t2 : ℚ) (o2 c2 : List Nat),
      s.running = true → (simStep s t1 o1 c1).running = false → t1 ≤ t2 →
      simStep (simStep s t1 o1 c1) t2 o2 c2 = simStep s t1 o1 c1) ∧
    (∀ (s : CRState) (o1 c1 o2 c2 : List Nat), s.steps_remaining ≤ 0 →
      crStep s o1 c1 = some { s with running := false } ∧
      crStep { s with running := false } o2 c2 =
        some { s with running := false }) := by
  constructor
  · intro s t1 o1 c1 t2 o2 c2 hr hterm hle
    by_cases hc : s.maxTime ≤ t1 - s.startTime ∨
        s.initialDirtyCells ≤ s.cleanCells
    · have h1 : simStep s t1 o1 c1 = { s with running := false } := by
        unfold simStep
        dsimp only
        rw [if_pos hc]
      rw [h1]
      have hc2 : s.maxTime ≤ t2 - s.startTime ∨
          s.initialDirtyCells ≤ s.cleanCells := by
        rcases hc with htime | hcnt
        · exact Or.inl (le_trans htime (sub_le_sub_right hle _))
        · exact Or.inr hcnt
      unfold simStep
      dsimp only
      rw [if_pos hc2]
    · exfalso
      have hrun : (simStep s t1 o1 c1).running = true := by
        unfold simStep
        dsimp only
        rw [if_neg hc]
        show (scheduleStep s o1 c1).running = true
        rw [scheduleStep_running]
        exact hr
      rw [hterm] at hrun
      exact Bool.false_ne_true hrun
  · intro s o1 c1 o2 c2 hs
    constructor
    · unfold crStep
      rw [if_pos hs]
    · unfold crStep
      rw [if_pos (show ({ s with running := false } : CRState).steps_remaining
        ≤ 0 from hs)]

/-- Witness for **C7**: on a zero-dirt state the first step terminates at
time 0 and a repeat at time 1 is the identity; the exhausted-budget
`cleaning_robot.py` state behaves likewise. -/
theorem C7_terminated_idempotent_witness :
    simStep (simStep exZeroState 0 [] []) 1 [] [] =
      simStep exZeroState 0 [] [] ∧
    crStep exCRDone [] [] = some { exCRDone with running := false } ∧
    crStep { exCRDone with running := false } [] [] =
      some { exCRDone with running := false } := by
  have hterm : (simStep exZeroState 0 [] []).running = false := by
    unfold simStep
    dsimp only
    rw [if_pos (show exZeroState.maxTime ≤ 0 - exZeroState.startTime ∨
      exZeroState.initialDirtyCells ≤ exZeroState.cleanCells from
      Or.inr (le_refl 0))]
  refine ⟨C7_terminated_idempotent.1 exZeroState 0 [] [] 1 [] [] rfl hterm
      (by norm_num),
    (C7_terminated_idempotent.2 exCRDone [] [] [] [] (by decide)).1,
    (C7_terminated_idempotent.2 exCRDone [] [] [] [] (by decide)).2⟩

/-- **C5**.  For every valid configuration (non-negative `dirtPercentage`)
and every legitimate `random.sample` outcome, initialization creates
exactly `floor(width*height*dirtPercentage)` dirty tiles (which also equals
the recorded `initialDirtyCells`), places one tile on every grid
coordinate — the tile coordinates are exactly `allCoords`, pairwise
distinct, each grid coordinate carrying exactly one tile — and no step ever
creates or removes a tile (the coordinate list is preserved verbatim). -/
theorem C5_initialization :
    (∀ (w h rc : Nat) (p mt t0 : ℚ) (sample : List (Nat × Nat)) (s : SimState),
      0 ≤ p →
      isValidSample w h (pyInt (((w * h : Nat) : ℚ) * p)).toNat sample →
      mkSimulation w h rc p mt t0 sample = .ok s →
      ((countDirty s.tiles : Int) = Int.floor (((w * h : Nat) : ℚ) * p) ∧
       countDirty s.tiles = s.initialDirtyCells ∧
       s.tiles.map Tile.pos = allCoords w h ∧
       (s.tiles.map Tile.pos).Nodup ∧
       (∀ q : Nat × Nat, q.1 < w → q.2 < h →
         s.tiles.countP (fun t => decide (t.pos = q)) = 1))) ∧
    (∀ (s : SimState) (now : ℚ) (o c : List Nat),
      (simStep s now o c).tiles.map Tile.pos = s.tiles.map Tile.pos) := by
  constructor
  · intro w h rc p mt t0 sample s hp hvs hk
    rw [mkSimulation_ok_elim hk]
    have hcount := countDirty_setup w h _ sample hvs
    have hnn : (0 : ℚ) ≤ ((w * h : Nat) : ℚ) * p :=
      mul_nonneg (Nat.cast_nonneg _) hp
    refine ⟨?_, ?_, ?_, ?_, ?_⟩
    · show ((countDirty (setupTiles w h sample) : Nat) : Int) =
        Int.floor (((w * h : Nat) : ℚ) * p)
      rw [hcount, Int.toNat_of_nonneg, pyInt_eq_floor hnn]
      rw [pyInt_eq_floor hnn]
      exact Int.floor_nonneg.mpr hnn
    · exact hcount
    · exact setupTiles_map_pos w h sample
    · rw [setupTiles_map_pos]
      exact allCoords_nodup w h
    · intro q h1 h2
      exact count_setupTiles w h sample q (mem_allCoords.mpr ⟨h1, h2⟩)
  · exact simStep_map_pos

/-- Witness for **C5**: the concrete construction
`mkSimulation 2 2 1 (1/2) 60 0 [(0,0),(1,1)]` has exactly
`⌊4 × 1/2⌋ = 2` dirty tiles on pairwise-distinct coordinates, exactly one
tile per coordinate, and a step preserves the tile coordinates. -/
theorem C5_initialization_witness :
    (countDirty exC5State.tiles : Int) =
      Int.floor (((2 * 2 : Nat) : ℚ) * (1/2)) ∧
    countDirty exC5State.tiles = exC5State.initialDirtyCells ∧
    (exC5State.tiles.map Tile.pos).Nodup ∧
    exC5State.tiles.countP (fun t => decide (t.pos = ((0 : Nat), (1 : Nat))))
      = 1 ∧
    (simStep exC5State 0 [] []).tiles.map Tile.pos =
      exC5State.tiles.map Tile.pos := by
  have hvs : isValidSample 2 2
      (pyInt (((2 * 2 : Nat) : ℚ) * (1/2))).toNat [(0, 0), (1, 1)] := by
    rw [show (pyInt (((2 * 2 : Nat) : ℚ) * (1/2))).toNat = 2 from by
      norm_num [pyInt]
      rfl]
    decide
  have hk : mkSimulation 2 2 1 (1/2) 60 0 [(0, 0), (1, 1)] =
      .ok exC5State := by
    norm_num [mkSimulation, pyInt, exC5State, setupTiles]
    rfl
  have h := C5_initialization.1 2 2 1 (1/2) 60 0 [(0, 0), (1, 1)] exC5State
    (by norm_num) hvs hk
  exact ⟨h.1, h.2.1, h.2.2.2.1, h.2.2.2.2 (0, 1) (by decide) (by decide),
    C5_initialization.2 exC5State 0 [] []⟩

/-- **C8**, counterexample.  The claim says all randomness is
seedable/injectable so that equal seeds and parameters reproduce the same
initial dirty-cell set.  The code draws the dirty sample from the ambient
module-level `random` generator and exposes no seed anywhere in the
constructor signature; for identical constructor parameters, two
legitimate draws of that ambient generator yield different initial
dirty-cell sets, so the parameters (the only inputs a caller can fix) do
not determine the outcome. -/
theorem C8_counterexample :
    isValidSample 2 2 1 [(0, 0)] ∧ isValidSample 2 2 1 [(0, 1)] ∧
    (mkSimulation 2 2 1 (1/4) 60 0 [(0, 0)]).toOption.map dirtyPositions =
      some [(0, 0)] ∧
    (mkSimulation 2 2 1 (1/4) 60 0 [(0, 1)]).toOption.map dirtyPositions =
      some [(0, 1)] := by
  have hv : ¬(pyInt (((2 * 2 : Nat) : ℚ) * (1/4)) < 0 ∨
      ((2 * 2 : Nat) : Int) < pyInt (((2 * 2 : Nat) : ℚ) * (1/4))) := by
    norm_num [pyInt]
  refine ⟨by decide, by decide, ?_, ?_⟩ <;>
  · unfold mkSimulation
    rw [if_neg hv, if_neg (show ¬((1 : Nat) ≠ 0 ∧ ¬(1 < 2 ∧ 1 < 2)) from
      by decide)]
    decide

/-- **C8**, amended.  Randomness in the core is ambient, not injectable:
the dirty-cell draw comes from the global `random` module and the
constructor takes only `(width, height, robotCount, dirtPercentage,
maxTime)` — no seed.  Consequently equal constructor parameters admit
distinct legitimate sampling outcomes with distinct initial dirty-cell
sets: runs are not reproducible through the core's interface. -/
theorem C8_randomness_ambient :
    ∃ sample1 sample2 : List (Nat × Nat),
      isValidSample 2 2 1 sample1 ∧ isValidSample 2 2 1 sample2 ∧
      (mkSimulation 2 2 1 (1/4) 60 0 sample1).toOption.map dirtyPositions ≠
        (mkSimulation 2 2 1 (1/4) 60 0 sample2).toOption.map
          dirtyPositions := by
  have hv : ¬(pyInt (((2 * 2 : Nat) : ℚ) * (1/4)) < 0 ∨
      ((2 * 2 : Nat) : Int) < pyInt (((2 * 2 : Nat) : ℚ) * (1/4))) := by
    norm_num [pyInt]
  refine ⟨[(0, 0)], [(0, 1)], by decide, by decide, ?_⟩
  unfold mkSimulation
  simp only [if_neg hv, if_neg (show ¬((1 : Nat) ≠ 0 ∧ ¬(1 < 2 ∧ 1 < 2)) from
    by decide)]
  decide

/-- **C9**.  With at least one robot and a grid whose width or height is
below 2, both constructors must place a robot at the hard-coded `(1, 1)`,
which is out of bounds, so construction fails with `IndexError` (given the
dirty-cell sampling itself succeeded).  In particular the 1×1 grid cannot
be constructed with any robot, even though the spec elsewhere treats it as
a defined degenerate input. -/
theorem C9_robot_placement_oob :
    (∀ (w h rc : Nat) (p mt t0 : ℚ) (sample : List (Nat × Nat)),
      1 ≤ rc → (w < 2 ∨ h < 2) →
      ¬(pyInt (((w * h : Nat) : ℚ) * p) < 0 ∨
        ((w * h : Nat) : Int) < pyInt (((w * h : Nat) : ℚ) * p)) →
      mkSimulation w h rc p mt t0 sample = .error .indexError) ∧
    (∀ (rc gw gh : Nat) (sr : Int) (p : ℚ) (sample : List (Nat × Nat)),
      1 ≤ rc → (gw < 2 ∨ gh < 2) →
      ¬(pyInt (((gw * gh : Nat) : ℚ) * p) < 0 ∨
        ((gw * gh : Nat) : Int) < pyInt (((gw * gh : Nat) : ℚ) * p)) →
      mkCRSimulation rc gw gh sr p sample = .error .indexError) := by
  constructor
  · intro w h rc p mt t0 sample hrc hwh hval
    unfold mkSimulation
    rw [if_neg hval, if_pos ⟨by omega, by rintro ⟨hw, hh⟩; omega⟩]
  · intro rc gw gh sr p sample hrc hwh hval
    unfold mkCRSimulation
    rw [if_neg hval, if_pos ⟨by omega, by rintro ⟨hw, hh⟩; omega⟩]

/-- Witness for **C9**: the 1×1 grid with one robot fails to construct in
both modules. -/
theorem C9_robot_placement_oob_witness :
    mkSimulation 1 1 1 0 60 0 [] = .error .indexError ∧
    mkCRSimulation 1 1 1 100 0 [] = .error .indexError :=
  ⟨C9_robot_placement_oob.1 1 1 1 0 60 0 [] (le_refl 1) (Or.inl (by omega))
    (by norm_num [pyInt]),
   C9_robot_placement_oob.2 1 1 1 100 0 [] (le_refl 1) (Or.inl (by omega))
    (by norm_num [pyInt])⟩

/-- **C10**.  The conservation invariant `cleanCells + (dirty tiles left) =
initialDirtyCells` holds at construction (for any legitimate sample) and is
preserved by every `step()`; `cleanCells` is non-decreasing across steps,
`initialDirtyCells` is constant, under the invariant `cleanCells` never
exceeds `initialDirtyCells`, tile statuses only ever move Dirty → Clean
(never back), and any statistics snapshot taken under the invariant reports
a completion percentage of at most 100. -/
theorem C10_clean_counter_invariant :
    (∀ (w h rc : Nat) (p mt t0 : ℚ) (sample : List (Nat × Nat)) (s : SimState),
      isValidSample w h (pyInt (((w * h : Nat) : ℚ) * p)).toNat sample →
      mkSimulation w h rc p mt t0 sample = .ok s → Inv s) ∧
    (∀ (s : SimState) (now : ℚ) (o c : List Nat),
      Inv s → Inv (simStep s now o c)) ∧
    (∀ (s : SimState) (now : ℚ) (o c : List Nat),
      s.cleanCells ≤ (simStep s now o c).cleanCells) ∧
    (∀ (s : SimState) (now : ℚ) (o c : List Nat),
      (simStep s now o c).initialDirtyCells = s.initialDirtyCells) ∧
    (∀ s : SimState, Inv s → s.cleanCells ≤ s.initialDirtyCells) ∧
    (∀ (s : SimState) (now : ℚ) (o c : List Nat),
      tilesLE s.tiles (simStep s now o c).tiles) ∧
    (∀ (s : SimState) (now : ℚ) (st : Stats), Inv s →
      getStatistics s now = some st → st.porcentajeCompletado ≤ 100) := by
  refine ⟨?_, simStep_inv, simStep_cleanCells_mono, simStep_initialDirtyCells,
    ?_, simStep_tilesLE, ?_⟩
  · intro w h rc p mt t0 sample s hvs hk
    rw [mkSimulation_ok_elim hk]
    show 0 + countDirty (setupTiles w h sample) =
      (pyInt (((w * h : Nat) : ℚ) * p)).toNat
    rw [countDirty_setup w h _ sample hvs, Nat.zero_add]
  · intro s hinv
    unfold Inv at hinv
    omega
  · intro s now st hinv hst
    unfold getStatistics at hst
    by_cases h0 : s.initialDirtyCells = 0
    · rw [if_pos h0] at hst
      cases hst
    · rw [if_neg h0] at hst
      have hci : s.cleanCells ≤ s.initialDirtyCells := by
        unfold Inv at hinv
        omega
      have hpos : (0 : ℚ) < (s.initialDirtyCells : ℚ) :=
        Nat.cast_pos.mpr (Nat.pos_of_ne_zero h0)
      have hle : (s.cleanCells : ℚ) ≤ (s.initialDirtyCells : ℚ) :=
        Nat.cast_le.mpr hci
      cases Option.some.inj hst
      show ((s.cleanCells : ℚ) / (s.initialDirtyCells : ℚ)) * 100 ≤ 100
      rw [div_mul_eq_mul_div, div_le_iff₀ hpos]
      linarith

/-- Witness for **C10**: on the concrete constructed state and the
one-dirty-tile state, the invariant holds, is preserved by a step, the
counter is monotone and bounded, tiles only get cleaner, and the reported
percentage is at most 100. -/
theorem C10_clean_counter_invariant_witness :
    Inv exC5State ∧
    Inv (simStep exDirtyState 0 [0] [0]) ∧
    exDirtyState.cleanCells ≤ (simStep exDirtyState 0 [0] [0]).cleanCells ∧
    (simStep exDirtyState 0 [0] [0]).initialDirtyCells =
      exDirtyState.initialDirtyCells ∧
    exDirtyState.cleanCells ≤ exDirtyState.initialDirtyCells ∧
    tilesLE exDirtyState.tiles (simStep exDirtyState 0 [0] [0]).tiles ∧
    ({ porcentajeCompletado := ((0 : ℚ) / (1 : ℚ)) * 100
       tiempoTranscurrido := 0 - 0
       movimientosTotales := 0 } : Stats).porcentajeCompletado ≤ 100 := by
  have hvs : isValidSample 2 2
      (pyInt (((2 * 2 : Nat) : ℚ) * (1/2))).toNat [(0, 0), (1, 1)] := by
    rw [show (pyInt (((2 * 2 : Nat) : ℚ) * (1/2))).toNat = 2 from by
      norm_num [pyInt]
      rfl]
    decide
  have hk : mkSimulation 2 2 1 (1/2) 60 0 [(0, 0), (1, 1)] =
      .ok exC5State := by
    norm_num [mkSimulation, pyInt, exC5State, setupTiles]
    rfl
  have hst : getStatistics exDirtyState 0 = some
      { porcentajeCompletado := ((0 : ℚ) / (1 : ℚ)) * 100
        tiempoTranscurrido := 0 - 0
        movimientosTotales := 0 } := rfl
  exact ⟨C10_clean_counter_invariant.1 2 2 1 (1/2) 60 0 [(0, 0), (1, 1)]
      exC5State hvs hk,
    C10_clean_counter_invariant.2.1 exDirtyState 0 [0] [0] (by decide),
    C10_clean_counter_invariant.2.2.1 exDirtyState 0 [0] [0],
    C10_clean_counter_invariant.2.2.2.1 exDirtyState 0 [0] [0],
    C10_clean_counter_invariant.2.2.2.2.1 exDirtyState (by decide),
    C10_clean_counter_invariant.2.2.2.2.2.1 exDirtyState 0 [0] [0],
    C10_clean_counter_invariant.2.2.2.2.2.2 exDirtyState 0 _ (by decide) hst⟩

end Claims

end CleaningSim
